import Mathlib

/-!
Verification of the adaptive time-stepping controller and the bidirectional
body-synchronization systems of the `nphysics-ecs-dumb` crate.

Shallow embedding conventions:
* `f32` time quantities, `Duration` and `Instant` values are embedded as `ℚ`
  (an `Instant` is a point on a global rational time line, a `Duration` a
  non-negative rational number of seconds).
* `&mut self` methods become state-passing functions returning the updated
  structure next to the original result; `Result`/`Option` returns become `Except`
  and `Option`; a Rust panic is embedded as `none` of an outer `Option`.
* nalgebra / nphysics vector payloads are embedded component-wise over `ℚ`.
-/

-- Batteries marks the rational arithmetic operations `[irreducible]`, which
-- blocks kernel evaluation (`decide` / `rfl`) of the executable definitions
-- below at concrete inputs; restore the default reducibility for them.
attribute [local semireducible] Rat.add Rat.mul Rat.sub Rat.inv

/-- Error when trying to change the actual timestep for a semi-fixed timestep
(`TimeStepChangeError` in `src/time_step.rs`).  The `Duration` payload of
`MinimumTimeNotReached` is embedded as `ℚ`. -/
inductive TimeStepChangeError where
  | MinimumTimestepReached
  | MaximumTimestepReached
  | MinimumTimeNotReached (remaining : ℚ)
  | NotRunningSlow
deriving DecidableEq

/-- Constraints for a semi-fixed timestep (`TimeStepConstraint` in
`src/time_step.rs`).  `running_slow_since : Option ℚ` embeds
`Option<Instant>`; `minimum_slow_time : ℚ` embeds the `Duration` field.
`max_physics_time_fraction` is Modelled from the spec: the accessor
`max_physics_time_fraction()` is called by `src/systems/physics_stepper.rs`
but its declaration is missing from the `src` snapshot of `time_step.rs`;
per the spec it defaults to 1.0 when unconfigured. -/
structure TimeStepConstraint where
  time_steps : List ℚ
  current_index : ℕ
  running_slow_since : Option ℚ
  minimum_slow_time : ℚ
  max_physics_time_fraction : ℚ
deriving DecidableEq

/-- Rust `Vec::dedup`: remove consecutive repeated elements. -/
def dedupConsecutive : List ℚ → List ℚ
  | [] => []
  | [a] => [a]
  | a :: b :: rest =>
    if a = b then dedupConsecutive (b :: rest) else a :: dedupConsecutive (b :: rest)

/-- `TimeStepConstraint::new`.  The two `assert!`s (empty list, first sorted
element non-positive) are embedded as `none`; `sort_by(partial_cmp)` over
rationals is a total-order sort (the `unwrap_or(Equal)` branch only matters
for NaN, which `ℚ` does not have), embedded with a stable insertion sort. -/
def TimeStepConstraint.new (time_steps : List ℚ) (minimum_slow_time : ℚ) :
    Option TimeStepConstraint :=
  if time_steps.isEmpty then none
  else
    match dedupConsecutive (time_steps.insertionSort (· ≤ ·)) with
    | [] => none
    | s :: rest =>
      if 0 < s then
        some { time_steps := s :: rest
               current_index := 0
               running_slow_since := none
               minimum_slow_time := minimum_slow_time
               max_physics_time_fraction := 1 }
      else none

/-- `TimeStepConstraint::current_timestep`: `self.time_steps[self.current_index]`
(indexing is total here via a default of `0`; `current_index` is in bounds for
every constraint produced by `new` and preserved by the mutators). -/
def TimeStepConstraint.current_timestep (c : TimeStepConstraint) : ℚ :=
  c.time_steps.getD c.current_index 0

/-- Modelled from the spec: `smaller_timestep()` is called by
`src/systems/physics_stepper.rs` but missing from the `src` snapshot of
`time_step.rs`; per the spec it is the next-smaller candidate step if one
exists (the candidate list is ascending, so the entry before `current_index`). -/
def TimeStepConstraint.smaller_timestep (c : TimeStepConstraint) : Option ℚ :=
  if c.current_index = 0 then none else c.time_steps.get? (c.current_index - 1)

/-- `TimeStepConstraint::increase_timestep`, state-passing.  `now` is the
current instant (`Instant::now()` at call time); `running_slow_since.elapsed()`
is `now - since`; `Duration::checked_sub` returns `some` exactly when the
minuend is at least the subtrahend. -/
def TimeStepConstraint.increase_timestep (c : TimeStepConstraint) (now : ℚ) :
    TimeStepConstraint × Except TimeStepChangeError ℚ :=
  if c.time_steps.length - 1 ≤ c.current_index then
    (c, .error .MaximumTimestepReached)
  else
    match c.running_slow_since with
    | none => (c, .error .NotRunningSlow)
    | some since =>
      if now - since ≤ c.minimum_slow_time then
        (c, .error (.MinimumTimeNotReached (c.minimum_slow_time - (now - since))))
      else
        let c' := { c with current_index := c.current_index + 1, running_slow_since := none }
        (c', .ok c'.current_timestep)

/-- `TimeStepConstraint::decrease_timestep`, state-passing (see
`increase_timestep` for the conventions). -/
def TimeStepConstraint.decrease_timestep (c : TimeStepConstraint) (now : ℚ) :
    TimeStepConstraint × Except TimeStepChangeError ℚ :=
  if c.current_index = 0 then
    (c, .error .MinimumTimestepReached)
  else
    match c.running_slow_since with
    | none => (c, .error .NotRunningSlow)
    | some since =>
      if now - since ≤ c.minimum_slow_time then
        (c, .error (.MinimumTimeNotReached (c.minimum_slow_time - (now - since))))
      else
        let c' := { c with current_index := c.current_index - 1, running_slow_since := none }
        (c', .ok c'.current_timestep)

/-- `TimeStepConstraint::set_running_slow`.  `Instant::now()` of the call is
passed as `now`. -/
def TimeStepConstraint.set_running_slow (c : TimeStepConstraint)
    (is_running_slow : Bool) (now : ℚ) : TimeStepConstraint :=
  { c with running_slow_since :=
      match c.running_slow_since, is_running_slow with
      | none, true => some now
      | some _, false => none
      | s, _ => s }

/-- `TimeStepConstraint::should_increase_timestep`. -/
def TimeStepConstraint.should_increase_timestep (c : TimeStepConstraint) (now : ℚ) : Bool :=
  match c.running_slow_since with
  | none => false
  | some since => decide (c.minimum_slow_time < now - since)

/-- The type of time step to use for the physics simulation (`TimeStep` in
`src/time_step.rs`; the Rust name of the second variant is `SemiFixed`). -/
inductive TimeStep where
  | Fixed (timestep : ℚ)
  | SemiFixed (constraint : TimeStepConstraint)
deriving DecidableEq

/-- Falloff factor for calculating the moving average step time
(`AVERAGE_STEP_TIME_FALLOFF = 0.33` in `src/systems/physics_stepper.rs`). -/
def AVERAGE_STEP_TIME_FALLOFF : ℚ := 33 / 100

/-- The mutable state of `PhysicsStepperSystem`
(`src/systems/physics_stepper.rs`). -/
structure StepperState where
  intended_timestep : TimeStep
  max_timesteps : ℤ
  time_accumulator : ℚ
  avg_step_time : Option ℚ
deriving DecidableEq

/-- One iteration's exponentially weighted moving average update of
`avg_step_time` (the `self.avg_step_time = Some(match ...)` block inside the
stepping loop), for an observed per-step wall-clock cost `cost`. -/
def observeStepTime (avg : Option ℚ) (cost : ℚ) : ℚ :=
  match avg with
  | none => cost
  | some a => a + AVERAGE_STEP_TIME_FALLOFF * (cost - a)

/-- The stepping loop
`while steps <= self.max_timesteps && self.time_accumulator >= timestep`.
The loop counter `steps` starts at `0` and increments each iteration, so the
guard `steps <= max_timesteps` admits exactly `(max_timesteps + 1).toNat`
iterations; that bound is passed as the structural `fuel` argument.  Each
iteration subtracts `timestep` from the accumulator and folds the wall-clock
cost of the simulation step (embedded as the constant `cost`) into the moving
average.  Returns (accumulator, steps taken, moving average). -/
def stepLoop (timestep cost : ℚ) : ℕ → ℚ → ℤ → Option ℚ → ℚ × ℤ × Option ℚ
  | 0, acc, steps, avg => (acc, steps, avg)
  | fuel + 1, acc, steps, avg =>
    if timestep ≤ acc then
      stepLoop timestep cost fuel (acc - timestep) (steps + 1) (some (observeStepTime avg cost))
    else (acc, steps, avg)

/-- The timestep-selection prologue of `PhysicsStepperSystem::run`
(the `match &mut self.intended_timestep` block): returns
`((timestep, change_timestep), updated intended_timestep)`.
`time_scale` embeds `time.time_scale()` and `now` the current instant
(used by the hysteresis checks inside `increase_timestep` /
`decrease_timestep`). -/
def selectTimestep : TimeStep → Option ℚ → ℚ → ℚ → (ℚ × Bool) × TimeStep
  | .Fixed timestep, _, _, _ => ((timestep, false), .Fixed timestep)
  | .SemiFixed c, avg_step_time, time_scale, now =>
    match avg_step_time with
    | none => ((c.current_timestep, false), .SemiFixed c)
    | some avg_step =>
      let adjusted_step_time := avg_step * time_scale / c.max_physics_time_fraction
      if c.current_timestep < adjusted_step_time then
        match c.increase_timestep now with
        | (c', .ok new_timestep) => ((new_timestep, true), .SemiFixed c')
        | (c', .error _) => ((c.current_timestep, false), .SemiFixed c')
      else
        match c.smaller_timestep with
        | some smaller_timestep =>
          if adjusted_step_time < smaller_timestep then
            match c.decrease_timestep now with
            | (c', .ok new_timestep) => ((new_timestep, true), .SemiFixed c')
            | (c', .error _) => ((c.current_timestep, false), .SemiFixed c')
          else ((c.current_timestep, false), .SemiFixed c)
        | none => ((c.current_timestep, false), .SemiFixed c)

/-- `PhysicsStepperSystem::run` (`src/systems/physics_stepper.rs`).
Inputs beyond the system state: the physics world's configured timestep
(`physical_world.timestep()`), the frame delta (`time.delta_seconds()`), the
frame's time scale, the current instant, and the wall-clock cost of one
`physical_world.step()` call.  Returns the new system state, the new world
timestep, and the number of sub-steps taken (the loop's final `steps`,
exposed for the running-slow wrapper below). -/
def PhysicsStepperSystem.run (st : StepperState) (world_timestep delta time_scale now cost : ℚ) :
    StepperState × ℚ × ℤ :=
  let sel := selectTimestep st.intended_timestep st.avg_step_time time_scale now
  let timestep := sel.1.1
  let change0 := sel.1.2
  let change : Bool := if world_timestep ≠ timestep ∧ change0 = false then true else change0
  let avg0 := if change = true then none else st.avg_step_time
  let world_ts := if change = true then timestep else world_timestep
  let out := stepLoop timestep cost (st.max_timesteps + 1).toNat (st.time_accumulator + delta) 0 avg0
  ({ intended_timestep := sel.2
     max_timesteps := st.max_timesteps
     time_accumulator := out.1
     avg_step_time := out.2.2 }, world_ts, out.2.1)

/-- Modelled from the spec: "After the loop, if `steps_taken > max_timesteps`,
signal running slow to the controller's hysteresis state" — the
`set_running_slow` call site is missing from the `src` snapshot
(`src/systems/physics_stepper.rs` contains no such call, while referencing
`TimeStepConstraint` accessors that are equally missing from
`src/time_step.rs`, so the snapshot mixes revisions).  Per the spec and the
doc comment of `set_running_slow` ("intended to be called every frame"), the
stepper run is followed by `set_running_slow(steps_taken > max_timesteps)`
once per frame. -/
def PhysicsStepperSystem.runWithSlowSignal (st : StepperState)
    (world_timestep delta time_scale now cost : ℚ) : StepperState × ℚ :=
  let out := PhysicsStepperSystem.run st world_timestep delta time_scale now cost
  let st' := out.1
  match st'.intended_timestep with
  | .SemiFixed c =>
    ({ st' with intended_timestep :=
        .SemiFixed (c.set_running_slow (decide (st.max_timesteps < out.2.2)) now) }, out.2.1)
  | .Fixed t => ({ st' with intended_timestep := .Fixed t }, out.2.1)

/-- The current step size held by a stepper state. -/
def StepperState.currentStep (st : StepperState) : ℚ :=
  match st.intended_timestep with
  | .Fixed t => t
  | .SemiFixed c => c.current_timestep

/-- The hysteresis running-slow-since instant held by a stepper state. -/
def StepperState.slowSince (st : StepperState) : Option ℚ :=
  match st.intended_timestep with
  | .Fixed _ => none
  | .SemiFixed c => c.running_slow_since

/-- Fold `runWithSlowSignal` over a list of frames given as
(instant, frame delta) pairs, with time scale 1 and a constant per-step
wall-clock cost. -/
def runFrames (cost : ℚ) : StepperState → ℚ → List (ℚ × ℚ) → StepperState × ℚ
  | st, wts, [] => (st, wts)
  | st, wts, (now, delta) :: rest =>
    let out := PhysicsStepperSystem.runWithSlowSignal st wts delta 1 now cost
    runFrames cost out.1 out.2 rest

/-! ## Scene / simulation data model for the synchronization systems -/

/-- specs entity identifier (the `u32` index form used by the change events). -/
abbrev Entity := ℕ

/-- Opaque, stable nphysics body handle. -/
abbrev BodyHandle := ℕ

/-- Opaque ncollide collider handle. -/
abbrev ColliderHandle := ℕ

/-- nalgebra 3-vector over the rational embedding of `f32`. -/
structure Vec3 where
  x : ℚ
  y : ℚ
  z : ℚ
deriving DecidableEq

/-- nphysics `Velocity<f32>`: linear and angular parts. -/
structure Velocity where
  linear : Vec3
  angular : Vec3
deriving DecidableEq

/-- nphysics `Force<f32>`: linear and angular parts. -/
structure Force where
  linear : Vec3
  angular : Vec3
deriving DecidableEq

/-- `Force::zero()`. -/
def Force.zero : Force := ⟨⟨0, 0, 0⟩, ⟨0, 0, 0⟩⟩

/-- Component-wise force accumulation (the effect of `Body::apply_force` on
the body's force accumulator). -/
def Force.add (f g : Force) : Force :=
  ⟨⟨f.linear.x + g.linear.x, f.linear.y + g.linear.y, f.linear.z + g.linear.z⟩,
   ⟨f.angular.x + g.angular.x, f.angular.y + g.angular.y, f.angular.z + g.angular.z⟩⟩

/-- nphysics `Inertia<f32>` as built by `Inertia::new(mass, angular_mass)`;
the angular inertia payload is collapsed to one rational. -/
structure Inertia where
  linear : ℚ
  angular : ℚ
deriving DecidableEq

/-- nphysics `BodyStatus`. -/
inductive BodyStatus where
  | Dynamic
  | Static
  | Kinematic
deriving DecidableEq

/-- An isometry (pose) is embedded as an opaque rational payload: the claims
only track which pose value flows where, never its geometry. -/
abbrev Iso3 := ℚ

/-- An nphysics rigid body as stored in the physics world.  `user_data`
embeds `Option<Box<dyn Any>>`: `none` means no user data was attached
(`user_data()` returns `None`), `some none` means the attached data is not a
`Box<Entity>` (the `downcast_ref` fails), `some (some e)` means a boxed
entity back-reference. -/
structure RigidBody where
  position : Iso3
  velocity : Velocity
  inertia : Inertia
  center_of_mass : ℚ
  forces : Force
  status : BodyStatus
  user_data : Option (Option Entity)
deriving DecidableEq

/-- Association-list lookup by handle (first match wins, as in an arena). -/
def lookupBody : List (BodyHandle × RigidBody) → BodyHandle → Option RigidBody
  | [], _ => none
  | (k, b) :: rest, h => if k = h then some b else lookupBody rest h

/-- The nphysics `World` as consumed by the systems: a body arena, the
collider-to-body table, and the fresh-handle counter. -/
structure PhysicsWorld where
  bodies : List (BodyHandle × RigidBody)
  colliders : List (ColliderHandle × BodyHandle)
  next_handle : BodyHandle
deriving DecidableEq

/-- `World::rigid_body` (also standing in for the read side of
`rigid_body_mut`). -/
def PhysicsWorld.rigid_body (w : PhysicsWorld) (h : BodyHandle) : Option RigidBody :=
  lookupBody w.bodies h

/-- `World::remove_bodies`. -/
def PhysicsWorld.remove_bodies (w : PhysicsWorld) (hs : List BodyHandle) : PhysicsWorld :=
  { w with bodies := w.bodies.filter (fun p => ¬ p.1 ∈ hs) }

/-- `World::add_rigid_body(position, inertia, center_of_mass)`: allocates a
fresh handle and inserts a new body with that pose and inertia, zero
velocity, zero force accumulator and the default `Dynamic` status.  Returns
the new handle together with the updated world (the Rust method returns only
the handle and mutates the world in place). -/
def PhysicsWorld.add_rigid_body (w : PhysicsWorld) (position : Iso3)
    (inertia : Inertia) (center_of_mass : ℚ) : BodyHandle × PhysicsWorld :=
  (w.next_handle,
   { w with
     bodies := (w.next_handle,
       { position := position
         velocity := ⟨⟨0, 0, 0⟩, ⟨0, 0, 0⟩⟩
         inertia := inertia
         center_of_mass := center_of_mass
         forces := Force.zero
         status := BodyStatus.Dynamic
         user_data := none }) :: w.bodies
     next_handle := w.next_handle + 1 })

/-- The write side of `rigid_body_mut`: apply an update to the body stored
under `h`. -/
def PhysicsWorld.update_body (w : PhysicsWorld) (h : BodyHandle)
    (f : RigidBody → RigidBody) : PhysicsWorld :=
  { w with bodies := w.bodies.map (fun p => if p.1 = h then (p.1, f p.2) else p) }

/-- `World::collider_body_handle`. -/
def PhysicsWorld.collider_body_handle (w : PhysicsWorld) (ch : ColliderHandle) :
    Option BodyHandle :=
  match w.colliders.find? (fun p => p.1 = ch) with
  | some p => some p.2
  | none => none

/-- `amethyst::core::GlobalTransform`: a 4×4 matrix, embedded as its optional
isometry part — `nalgebra::try_convert` on it succeeds exactly when the
matrix is an isometry, so the embedding records the conversion result
directly. -/
structure GlobalTransform where
  iso : Option Iso3
deriving DecidableEq

/-- `nalgebra::try_convert` from a `GlobalTransform`'s matrix to an isometry. -/
def try_convert (t : GlobalTransform) : Option Iso3 := t.iso

/-- The `RigidBody` payload of `crate::bodies::DynamicBody`.  Modelled from
the spec: `bodies.rs` is not under `src`; the fields are those the sync
systems read and write (`handle`, `mass`, `angular_mass`, `center_of_mass`,
`velocity`, `external_forces`, `body_status`), per the spec's "body component
holding simulation parameters (mass, velocity, external forces, body-status,
optional handle back-reference)". -/
structure RigidPhysicsBody where
  handle : Option BodyHandle
  mass : ℚ
  angular_mass : ℚ
  center_of_mass : ℚ
  velocity : Velocity
  external_forces : Force
  body_status : BodyStatus
deriving DecidableEq

/-- `crate::bodies::DynamicBody` (multibodies carry no data the systems use:
every multibody path is an unimplemented-error log). -/
inductive DynamicBody where
  | RigidBody (rigid_body : RigidPhysicsBody)
  | Multibody
deriving DecidableEq

/-- Modelled from the spec: `DynamicBody::handle()` (declared in the missing
`bodies.rs`) returns the component's optional back-reference handle. -/
def DynamicBody.handle : DynamicBody → Option BodyHandle
  | .RigidBody rb => rb.handle
  | .Multibody => none

/-- `amethyst::ecs::storage::ComponentEvent`. -/
inductive ComponentEvent where
  | Inserted (id : Entity)
  | Modified (id : Entity)
  | Removed (id : Entity)
deriving DecidableEq



/-- `iterate_events` in `src/systems/sync_bodies_to_physics.rs`: fold the
change events of one tracked storage, collecting inserted / modified ids and
removing the bodies of removed entities from the physics world.  The storage
lookup `bodies.get(entities.entity(*id))` is embedded as the map
`bodies : Entity → Option DynamicBody` (the state of the `DynamicBody`
storage at event-processing time).  The `error!` branches (missing component,
missing handle) change nothing. -/
def iterate_events (bodies : Entity → Option DynamicBody) :
    List ComponentEvent → List Entity → List Entity → PhysicsWorld →
    List Entity × List Entity × PhysicsWorld
  | [], inserted, modified, world => (inserted, modified, world)
  | ev :: rest, inserted, modified, world =>
    match ev with
    | .Modified id => iterate_events bodies rest inserted (id :: modified) world
    | .Inserted id => iterate_events bodies rest (id :: inserted) modified world
    | .Removed id =>
      match bodies id with
      | some body =>
        match body.handle with
        | some handle => iterate_events bodies rest inserted modified (world.remove_bodies [handle])
        | none => iterate_events bodies rest inserted modified world
      | none => iterate_events bodies rest inserted modified world

/-- The per-entity body of the update loop in
`SyncBodiesToPhysicsSystem::run` (`src/systems/sync_bodies_to_physics.rs`,
the `for ... in (&entities, &transforms, &mut physics_bodies, ...).join()`
block).  `inserted` / `modified` say whether the entity's id is contained in
the union of the inserted (resp. modified) bit sets; the `if/else if`
ordering makes insert dominate modify.  A Rust panic — the
`try_convert(transform.0).unwrap()` on the insert path, the
`rigid_body.handle.unwrap()` on the modify path, and the
`rigid_body_mut(..).unwrap()` after insertion — is embedded as `none`.
On success the updated physics world and the entity's updated component are
returned. -/
def syncEntity (world : PhysicsWorld) (transform : GlobalTransform) (body : DynamicBody) :
    Bool → Bool → Option (PhysicsWorld × DynamicBody)
  | true, _ =>
    -- `if inserted_transforms.contains(id) || inserted_physics_bodies.contains(id)`
    match body with
    | .RigidBody rigid_body =>
      -- Just inserted. Remove old one and insert new.
      let world2 :=
        match rigid_body.handle with
        | some handle =>
          if (world.rigid_body handle).isSome then world.remove_bodies [handle] else world
        | none => world
      match try_convert transform with
      | none => none
      | some position =>
        let out := world2.add_rigid_body position
          ⟨rigid_body.mass, rigid_body.angular_mass⟩ rigid_body.center_of_mass
        match out.2.rigid_body out.1 with
        | none => none
        | some _ =>
          let world3 := out.2.update_body out.1 (fun physical_body =>
            { physical_body with
              velocity := rigid_body.velocity
              forces := physical_body.forces.add rigid_body.external_forces
              status := rigid_body.body_status })
          some (world3, .RigidBody
            { rigid_body with handle := some out.1, external_forces := Force.zero })
    | .Multibody => some (world, .Multibody)
  | false, true =>
    -- `else if modified_transforms.contains(id) || modified_physics_bodies.contains(id)`
    match body with
    | .RigidBody rigid_body =>
      match rigid_body.handle with
      | none => none
      | some handle =>
        match world.rigid_body handle with
        | none => some (world, .RigidBody rigid_body)
        | some _ =>
          match try_convert transform with
          | none => some (world, .RigidBody rigid_body)
          | some position =>
            let world2 := world.update_body handle (fun physical_body =>
              { physical_body with
                position := position
                velocity := rigid_body.velocity
                forces := physical_body.forces.add rigid_body.external_forces
                status := rigid_body.body_status })
            some (world2, .RigidBody rigid_body)
    | .Multibody => some (world, .Multibody)
  | false, false => some (world, body)

/-- The whole update loop of `SyncBodiesToPhysicsSystem::run`: fold
`syncEntity` over the joined entities (given as transform, body component and
the two membership flags), threading the physics world and collecting the
updated components; a panic anywhere aborts the frame (`none`). -/
def syncEntities (world : PhysicsWorld) :
    List (GlobalTransform × DynamicBody × Bool × Bool) →
    Option (PhysicsWorld × List DynamicBody)
  | [] => some (world, [])
  | (transform, body, inserted, modified) :: rest =>
    match syncEntity world transform body inserted modified with
    | none => none
    | some out =>
      match syncEntities out.1 rest with
      | none => none
      | some out2 => some (out2.1, out.2 :: out2.2)

/-- `ncollide3d::events::ContactEvent`. -/
inductive ContactEvent where
  | Started (h1 h2 : ColliderHandle)
  | Stopped (h1 h2 : ColliderHandle)
deriving DecidableEq

/-- `ncollide3d::events::ProximityEvent` (only the collider handles are read
by the system). -/
structure ProximityEvent where
  collider1 : ColliderHandle
  collider2 : ColliderHandle
deriving DecidableEq

/-- The `match ev` extracting the collider handles of a contact event. -/
def contactHandles : ContactEvent → ColliderHandle × ColliderHandle
  | .Started h1 h2 => (h1, h2)
  | .Stopped h1 h2 => (h1, h2)

/-- The per-event closure of the contact-event translation in
`SyncBodiesFromPhysicsSystem::run` (`src/systems/sync_bodies_from_physics.rs`).
Result: `none` embeds a panic — the `.unwrap()` applied to
`physical_world.rigid_body(c).map(...)` when the body handle has no live
body, and the `body.user_data().unwrap()` when the body carries no user
data; `some none` embeds the logged-error-and-drop branches; `some (some r)`
embeds an emitted record. -/
def processContactEvent (w : PhysicsWorld) (ev : ContactEvent) :
    Option (Option (Entity × Entity × ContactEvent)) :=
  let handles := contactHandles ev
  match w.collider_body_handle handles.1, w.collider_body_handle handles.2 with
  | some c1, some c2 =>
    match w.rigid_body c1 with
    | none => none
    | some b1 =>
      match b1.user_data with
      | none => none
      | some e1 =>
        match w.rigid_body c2 with
        | none => none
        | some b2 =>
          match b2.user_data with
          | none => none
          | some e2 =>
            match e1, e2 with
            | some e1, some e2 => some (some (e1, e2, ev))
            | _, _ => some none
  | _, _ => some none

/-- The contact-event drain: `flat_map` over the queued events followed by
`collect`, with panic propagation. -/
def processContactEvents (w : PhysicsWorld) :
    List ContactEvent → Option (List (Entity × Entity × ContactEvent))
  | [] => some []
  | ev :: rest =>
    match processContactEvent w ev with
    | none => none
    | some r =>
      match processContactEvents w rest with
      | none => none
      | some rs => some (match r with | some rec0 => rec0 :: rs | none => rs)

/-- The per-event closure of the proximity-event translation (structurally
identical to the contact case, reading `ev.collider1` / `ev.collider2`). -/
def processProximityEvent (w : PhysicsWorld) (ev : ProximityEvent) :
    Option (Option (Entity × Entity × ProximityEvent)) :=
  match w.collider_body_handle ev.collider1, w.collider_body_handle ev.collider2 with
  | some c1, some c2 =>
    match w.rigid_body c1 with
    | none => none
    | some b1 =>
      match b1.user_data with
      | none => none
      | some e1 =>
        match w.rigid_body c2 with
        | none => none
        | some b2 =>
          match b2.user_data with
          | none => none
          | some e2 =>
            match e1, e2 with
            | some e1, some e2 => some (some (e1, e2, ev))
            | _, _ => some none
  | _, _ => some none

/-! ## Helper lemmas -/

theorem stepLoop_acc_steps (s cost : ℚ) (hs : 0 < s) :
    ∀ (fuel : ℕ) (acc : ℚ) (steps : ℤ) (avg : Option ℚ), 0 ≤ acc →
      (stepLoop s cost fuel acc steps avg).1 = acc - (min ⌊acc / s⌋ (fuel : ℤ)) * s ∧
      (stepLoop s cost fuel acc steps avg).2.1 = steps + min ⌊acc / s⌋ (fuel : ℤ) := by
  intro fuel
  induction fuel with
  | zero =>
    intro acc steps avg hacc
    have hfl : 0 ≤ ⌊acc / s⌋ := Int.floor_nonneg.mpr (div_nonneg hacc hs.le)
    have hmin : min ⌊acc / s⌋ ((0 : ℕ) : ℤ) = 0 := by
      simp only [Nat.cast_zero]
      omega
    simp only [stepLoop]
    rw [hmin]
    norm_num
  | succ fuel ih =>
    intro acc steps avg hacc
    by_cases h : s ≤ acc
    · have hacc2 : (0 : ℚ) ≤ acc - s := sub_nonneg.mpr h
      have hstep : stepLoop s cost (fuel + 1) acc steps avg =
          stepLoop s cost fuel (acc - s) (steps + 1) (some (observeStepTime avg cost)) := by
        simp [stepLoop, h]
      have hdiv : (acc - s) / s = acc / s - 1 := by
        rw [sub_div, div_self hs.ne']
      have hfloor : ⌊(acc - s) / s⌋ = ⌊acc / s⌋ - 1 := by
        rw [hdiv]
        exact_mod_cast Int.floor_sub_int (acc / s) 1
      have hone : (1 : ℤ) ≤ ⌊acc / s⌋ := by
        apply Int.le_floor.mpr
        rw [Int.cast_one]
        exact (one_le_div hs).mpr h
      obtain ⟨ih1, ih2⟩ := ih (acc - s) (steps + 1) (some (observeStepTime avg cost)) hacc2
      have hminarith : min ⌊acc / s⌋ ((fuel + 1 : ℕ) : ℤ) =
          min ⌊(acc - s) / s⌋ ((fuel : ℕ) : ℤ) + 1 := by
        rw [hfloor]
        push_cast
        omega
      constructor
      · rw [hstep, ih1, hminarith]
        push_cast
        ring
      · rw [hstep, ih2, hminarith]
        omega
    · have hflz : ⌊acc / s⌋ = 0 := by
        apply Int.floor_eq_zero_iff.mpr
        constructor
        · exact div_nonneg hacc hs.le
        · exact (div_lt_one hs).mpr (lt_of_not_le h)
      have hmin : min ⌊acc / s⌋ ((fuel + 1 : ℕ) : ℤ) = 0 := by
        rw [hflz]
        have : (0 : ℤ) ≤ ((fuel + 1 : ℕ) : ℤ) := by positivity
        omega
      simp only [stepLoop, if_neg h]
      rw [hmin]
      norm_num

theorem run_fixed_spec (s : ℚ) (max : ℤ) (a d wts ts now cost : ℚ) (avg : Option ℚ)
    (hs : 0 < s) (ha : 0 ≤ a) (hd : 0 ≤ d) (hmax : 0 ≤ max) :
    (PhysicsStepperSystem.run ⟨.Fixed s, max, a, avg⟩ wts d ts now cost).2.2 =
      min ⌊(a + d) / s⌋ (max + 1) ∧
    (PhysicsStepperSystem.run ⟨.Fixed s, max, a, avg⟩ wts d ts now cost).1.time_accumulator =
      (a + d) - (min ⌊(a + d) / s⌋ (max + 1) : ℤ) * s ∧
    ((PhysicsStepperSystem.run ⟨.Fixed s, max, a, avg⟩ wts d ts now cost).2.2 < max + 1 →
      (PhysicsStepperSystem.run ⟨.Fixed s, max, a, avg⟩ wts d ts now cost).1.time_accumulator < s) := by
  have hfuel : (((max + 1).toNat : ℕ) : ℤ) = max + 1 := Int.toNat_of_nonneg (by omega)
  have key := fun avg0 =>
    stepLoop_acc_steps s cost hs ((max + 1).toNat) (a + d) 0 avg0 (add_nonneg ha hd)
  have e1 : (PhysicsStepperSystem.run ⟨.Fixed s, max, a, avg⟩ wts d ts now cost).2.2 =
      min ⌊(a + d) / s⌋ (max + 1) := by
    simp only [PhysicsStepperSystem.run, selectTimestep]
    rw [(key _).2, hfuel]
    ring
  have e2 : (PhysicsStepperSystem.run ⟨.Fixed s, max, a, avg⟩ wts d ts now cost).1.time_accumulator =
      (a + d) - (min ⌊(a + d) / s⌋ (max + 1) : ℤ) * s := by
    simp only [PhysicsStepperSystem.run, selectTimestep]
    rw [(key _).1, hfuel]
  refine ⟨e1, e2, ?_⟩
  intro hlt
  rw [e1] at hlt
  rw [e2]
  have hmineq : min ⌊(a + d) / s⌋ (max + 1) = ⌊(a + d) / s⌋ := by omega
  rw [hmineq]
  have hf := Int.sub_one_lt_floor ((a + d) / s)
  have h2 : ((a + d) / s - 1) * s < (⌊(a + d) / s⌋ : ℚ) * s :=
    mul_lt_mul_of_pos_right hf hs
  have h3 : ((a + d) / s - 1) * s = (a + d) - s := by
    rw [sub_mul, div_mul_cancel₀ _ hs.ne', one_mul]
  linarith

theorem dedupConsecutive_cons : ∀ (b : ℚ) (rest : List ℚ),
    ∃ t, dedupConsecutive (b :: rest) = b :: t
  | _, [] => ⟨[], rfl⟩
  | b, c :: r => by
    by_cases h : b = c
    · obtain ⟨t, ht⟩ := dedupConsecutive_cons c r
      refine ⟨t, ?_⟩
      rw [show dedupConsecutive (b :: c :: r) = dedupConsecutive (c :: r) from by
        simp [dedupConsecutive, h], ht, h]
    · exact ⟨dedupConsecutive (c :: r), by simp [dedupConsecutive, h]⟩

theorem mem_dedupConsecutive : ∀ (l : List ℚ) (x : ℚ),
    x ∈ dedupConsecutive l ↔ x ∈ l
  | [], x => by simp [dedupConsecutive]
  | [_], x => by simp [dedupConsecutive]
  | a :: b :: rest, x => by
    have ih := mem_dedupConsecutive (b :: rest) x
    by_cases h : a = b
    · simp [dedupConsecutive, h, ih]
    · simp [dedupConsecutive, h, ih]

theorem chain_dedupConsecutive : ∀ (l : List ℚ), l.Sorted (· ≤ ·) →
    List.Chain' (· < ·) (dedupConsecutive l)
  | [], _ => by simp [dedupConsecutive]
  | [_], _ => by simp [dedupConsecutive]
  | a :: b :: rest, h => by
    have hab : a ≤ b := (List.sorted_cons.mp h).1 b (by simp)
    have htail : (b :: rest).Sorted (· ≤ ·) := (List.sorted_cons.mp h).2
    have ih := chain_dedupConsecutive (b :: rest) htail
    by_cases hab2 : a = b
    · simpa [dedupConsecutive, hab2] using ih
    · obtain ⟨t, ht⟩ := dedupConsecutive_cons b rest
      rw [show dedupConsecutive (a :: b :: rest) = a :: dedupConsecutive (b :: rest) from by
        simp [dedupConsecutive, hab2], ht]
      rw [ht] at ih
      exact List.chain'_cons.mpr ⟨lt_of_le_of_ne hab hab2, ih⟩

/-- C7: `TimeStepConstraint::new` refuses to initialize (panics, embedded as
`none`) exactly when the candidate list is empty or contains a non-positive
step; on success the constraint holds the given steps as a strictly
ascending (hence deduplicated) list of strictly positive values with
`current_index = 0` in bounds and no running-slow state. -/
theorem timeStepConstraint_new_spec (ts : List ℚ) (mst : ℚ) :
    ((TimeStepConstraint.new ts mst).isSome ↔ ts ≠ [] ∧ ∀ x ∈ ts, 0 < x) ∧
    (∀ c, TimeStepConstraint.new ts mst = some c →
      List.Chain' (· < ·) c.time_steps ∧
      (∀ x, x ∈ c.time_steps ↔ x ∈ ts) ∧
      (∀ x ∈ c.time_steps, 0 < x) ∧
      c.current_index = 0 ∧
      c.current_index < c.time_steps.length ∧
      c.running_slow_since = none) := by
  rcases ts with _ | ⟨t, ts'⟩
  · constructor
    · simp [TimeStepConstraint.new]
    · intro c hc
      simp [TimeStepConstraint.new] at hc
  · set L := (t :: ts').insertionSort (· ≤ ·) with hLdef
    have hsortL : L.Sorted (· ≤ ·) := List.sorted_insertionSort (· ≤ ·) (t :: ts')
    have hperm : ∀ x : ℚ, x ∈ L ↔ x ∈ t :: ts' :=
      fun x => (List.perm_insertionSort (· ≤ ·) (t :: ts')).mem_iff
    have hLne : L ≠ [] := by
      intro hnil
      have := (hperm t).mpr (by simp)
      rw [hnil] at this
      simp at this
    obtain ⟨s0, tl, hL⟩ := List.exists_cons_of_ne_nil hLne
    obtain ⟨tl2, hdc⟩ := dedupConsecutive_cons s0 tl
    have hdcL : dedupConsecutive L = s0 :: tl2 := by rw [hL, hdc]
    have hhead : ∀ x ∈ L, s0 ≤ x := by
      intro x hx
      rw [hL] at hx
      rcases List.mem_cons.mp hx with hx | hx
      · exact le_of_eq hx.symm
      · exact (List.sorted_cons.mp (hL ▸ hsortL)).1 x hx
    have hnew : TimeStepConstraint.new (t :: ts') mst =
        (if 0 < s0 then
          some { time_steps := s0 :: tl2
                 current_index := 0
                 running_slow_since := none
                 minimum_slow_time := mst
                 max_physics_time_fraction := 1 }
        else none) := by
      simp only [TimeStepConstraint.new, List.isEmpty_cons, ← hLdef, hdcL]
      rfl
    by_cases hpos : 0 < s0
    · rw [if_pos hpos] at hnew
      constructor
      · rw [hnew]
        simp only [Option.isSome_some, true_iff]
        refine ⟨by simp, ?_⟩
        intro x hx
        exact lt_of_lt_of_le hpos (hhead x ((hperm x).mpr hx))
      · intro c hc
        rw [hnew] at hc
        obtain rfl := (Option.some.injEq _ _).mp hc
        refine ⟨?_, ?_, ?_, rfl, by simp, rfl⟩
        · rw [← hdcL]
          exact chain_dedupConsecutive L hsortL
        · intro x
          rw [← hdcL, mem_dedupConsecutive L x]
          exact hperm x
        · intro x hx
          rw [← hdcL, mem_dedupConsecutive L x] at hx
          exact lt_of_lt_of_le hpos (hhead x hx)
    · rw [if_neg hpos] at hnew
      constructor
      · rw [hnew]
        simp only [Option.isSome_none]
        constructor
        · intro h
          simp at h
        · rintro ⟨-, hall⟩
          have hs0 : s0 ∈ L := by rw [hL]; simp
          exact absurd (hall s0 ((hperm s0).mp hs0)) hpos
      · intro c hc
        rw [hnew] at hc
        simp at hc

/-- Witness for C7: instantiates the success part at the unsorted,
duplicated input `[1/60, 1/120, 1/60]`. -/
theorem timeStepConstraint_new_spec_witness :
    List.Chain' (· < ·) ([1/120, 1/60] : List ℚ) ∧
    (∀ x : ℚ, x ∈ ([1/120, 1/60] : List ℚ) ↔ x ∈ ([1/60, 1/120, 1/60] : List ℚ)) ∧
    (∀ x ∈ ([1/120, 1/60] : List ℚ), 0 < x) ∧
    (0 : ℕ) = 0 ∧
    (0 : ℕ) < ([1/120, 1/60] : List ℚ).length ∧
    (none : Option ℚ) = none :=
  (timeStepConstraint_new_spec [1/60, 1/120, 1/60] 2).2
    ⟨[1/120, 1/60], 0, none, 2, 1⟩ rfl

/-- C8: whenever `increase_timestep` or `decrease_timestep` returns an
error, the error is one of the four `TimeStepChangeError` variants and the
constraint is returned unchanged (so `current_index`, `current_timestep()`
and `running_slow_since` all retain their previous values); and
`current_index` always stays in bounds. -/
theorem timestep_change_error_spec (c : TimeStepConstraint) (now : ℚ) :
    (∀ e : TimeStepChangeError,
      ((c.increase_timestep now).2 = .error e ∨ (c.decrease_timestep now).2 = .error e) →
      (e = .MaximumTimestepReached ∨ e = .MinimumTimestepReached ∨
       e = .NotRunningSlow ∨ ∃ r, e = .MinimumTimeNotReached r)) ∧
    (∀ e, (c.increase_timestep now).2 = .error e → (c.increase_timestep now).1 = c) ∧
    (∀ e, (c.decrease_timestep now).2 = .error e → (c.decrease_timestep now).1 = c) ∧
    (c.current_index < c.time_steps.length →
      (c.increase_timestep now).1.current_index < c.time_steps.length ∧
      (c.decrease_timestep now).1.current_index < c.time_steps.length) := by
  refine ⟨?_, ?_, ?_, ?_⟩
  · intro e _
    cases e with
    | MinimumTimestepReached => exact Or.inr (Or.inl rfl)
    | MaximumTimestepReached => exact Or.inl rfl
    | MinimumTimeNotReached r => exact Or.inr (Or.inr (Or.inr ⟨r, rfl⟩))
    | NotRunningSlow => exact Or.inr (Or.inr (Or.inl rfl))
  · intro e h
    by_cases h1 : c.time_steps.length - 1 ≤ c.current_index
    · simp [TimeStepConstraint.increase_timestep, h1]
    · rcases hrs : c.running_slow_since with _ | since
      · simp [TimeStepConstraint.increase_timestep, h1, hrs]
      · by_cases h2 : now - since ≤ c.minimum_slow_time
        · simp [TimeStepConstraint.increase_timestep, h1, hrs, h2]
        · exfalso
          simp [TimeStepConstraint.increase_timestep, h1, hrs, h2] at h
  · intro e h
    by_cases h1 : c.current_index = 0
    · simp [TimeStepConstraint.decrease_timestep, h1]
    · rcases hrs : c.running_slow_since with _ | since
      · simp [TimeStepConstraint.decrease_timestep, h1, hrs]
      · by_cases h2 : now - since ≤ c.minimum_slow_time
        · simp [TimeStepConstraint.decrease_timestep, h1, hrs, h2]
        · exfalso
          simp [TimeStepConstraint.decrease_timestep, h1, hrs, h2] at h
  · intro hlt
    constructor
    · by_cases h1 : c.time_steps.length - 1 ≤ c.current_index
      · simpa [TimeStepConstraint.increase_timestep, h1] using hlt
      · rcases hrs : c.running_slow_since with _ | since
        · simpa [TimeStepConstraint.increase_timestep, h1, hrs] using hlt
        · by_cases h2 : now - since ≤ c.minimum_slow_time
          · simpa [TimeStepConstraint.increase_timestep, h1, hrs, h2] using hlt
          · simp [TimeStepConstraint.increase_timestep, h1, hrs, h2]
            omega
    · by_cases h1 : c.current_index = 0
      · simpa [TimeStepConstraint.decrease_timestep, h1] using hlt
      · rcases hrs : c.running_slow_since with _ | since
        · simpa [TimeStepConstraint.decrease_timestep, h1, hrs] using hlt
        · by_cases h2 : now - since ≤ c.minimum_slow_time
          · simpa [TimeStepConstraint.decrease_timestep, h1, hrs, h2] using hlt
          · simp [TimeStepConstraint.decrease_timestep, h1, hrs, h2]
            omega

/-- Witness for C8: a constraint that is not running slow keeps its state on
the failed increase and decrease. -/
theorem timestep_change_error_spec_witness :
    ((⟨[1/120, 1/60], 0, none, 1, 1⟩ : TimeStepConstraint).increase_timestep 5).1 =
      (⟨[1/120, 1/60], 0, none, 1, 1⟩ : TimeStepConstraint) ∧
    ((⟨[1/120, 1/60], 0, none, 1, 1⟩ : TimeStepConstraint).decrease_timestep 5).1 =
      (⟨[1/120, 1/60], 0, none, 1, 1⟩ : TimeStepConstraint) :=
  ⟨(timestep_change_error_spec ⟨[1/120, 1/60], 0, none, 1, 1⟩ 5).2.1
      .NotRunningSlow rfl,
   (timestep_change_error_spec ⟨[1/120, 1/60], 0, none, 1, 1⟩ 5).2.2.1
      .MinimumTimestepReached rfl⟩

/-- Counterexample for C2: with `max_timesteps = 10`, accumulator `0`, delta
`12` and fixed step `1`, the stepper executes 11 sub-steps (the loop guard
`steps <= max_timesteps` admits `max_timesteps + 1` iterations), not
`floor((0+12)/1)` clamped to `[0, 10] = 10` as claimed. -/
theorem stepper_substeps_clamp_cex :
    (PhysicsStepperSystem.run ⟨.Fixed 1, 10, 0, none⟩ 1 12 1 0 1).2.2 = 11 ∧
    ¬ ((PhysicsStepperSystem.run ⟨.Fixed 1, 10, 0, none⟩ 1 12 1 0 1).2.2 =
        min ⌊((0 : ℚ) + 12) / 1⌋ 10) := by decide

/-- C2 (amended): for every frame with delta `d ≥ 0` and fixed step `s > 0`,
the stepper executes exactly `floor((accumulator_before + d) / s)` sub-steps
clamped to `[0, max_timesteps + 1]` (not `max_timesteps`: the loop guard is
`steps <= max_timesteps`), and afterwards the accumulator equals
`(accumulator_before + d) - steps_taken * s`, which is `< s` whenever
`steps_taken < max_timesteps + 1`. -/
theorem stepper_substeps_spec (s a d wts ts now cost : ℚ) (max : ℤ) (avg : Option ℚ)
    (hs : 0 < s) (ha : 0 ≤ a) (hd : 0 ≤ d) (hmax : 0 ≤ max) :
    (PhysicsStepperSystem.run ⟨.Fixed s, max, a, avg⟩ wts d ts now cost).2.2 =
      min ⌊(a + d) / s⌋ (max + 1) ∧
    (PhysicsStepperSystem.run ⟨.Fixed s, max, a, avg⟩ wts d ts now cost).1.time_accumulator =
      (a + d) - ((PhysicsStepperSystem.run ⟨.Fixed s, max, a, avg⟩ wts d ts now cost).2.2 : ℤ) * s ∧
    ((PhysicsStepperSystem.run ⟨.Fixed s, max, a, avg⟩ wts d ts now cost).2.2 < max + 1 →
      (PhysicsStepperSystem.run ⟨.Fixed s, max, a, avg⟩ wts d ts now cost).1.time_accumulator < s) := by
  obtain ⟨e1, e2, e3⟩ := run_fixed_spec s max a d wts ts now cost avg hs ha hd hmax
  refine ⟨e1, ?_, e3⟩
  rw [e2, e1]

/-- Witness for C2's amended theorem at step `1/2`, accumulator `1/4`, delta
`2`, `max_timesteps = 3`. -/
theorem stepper_substeps_spec_witness :
    (0 : ℚ) < 1/2 ∧
    ((PhysicsStepperSystem.run ⟨.Fixed (1/2), 3, 1/4, none⟩ (1/2) 2 1 0 1).2.2 =
      min ⌊((1/4 : ℚ) + 2) / (1/2)⌋ (3 + 1) ∧
    (PhysicsStepperSystem.run ⟨.Fixed (1/2), 3, 1/4, none⟩ (1/2) 2 1 0 1).1.time_accumulator =
      ((1/4 : ℚ) + 2) -
        ((PhysicsStepperSystem.run ⟨.Fixed (1/2), 3, 1/4, none⟩ (1/2) 2 1 0 1).2.2 : ℤ) * (1/2) ∧
    ((PhysicsStepperSystem.run ⟨.Fixed (1/2), 3, 1/4, none⟩ (1/2) 2 1 0 1).2.2 < 3 + 1 →
      (PhysicsStepperSystem.run ⟨.Fixed (1/2), 3, 1/4, none⟩ (1/2) 2 1 0 1).1.time_accumulator < 1/2)) :=
  ⟨by decide,
   stepper_substeps_spec (1/2) (1/4) 2 (1/2) 1 0 1 3 none
     (by decide) (by decide) (by decide) (by decide)⟩

/-- Counterexample for C3: with `max_timesteps = 0`, accumulator `0`, delta
`1` and fixed step `1`, the stepper executes one sub-step, not zero — the
loop guard `steps <= 0` still admits the iteration with `steps = 0`. -/
theorem stepper_max0_cex :
    (PhysicsStepperSystem.run ⟨.Fixed 1, 0, 0, none⟩ 1 1 1 0 1).2.2 = 1 ∧
    (PhysicsStepperSystem.run ⟨.Fixed 1, 0, 0, none⟩ 1 1 1 0 1).2.2 ≠ 0 := by decide

/-- C3 (amended): with `max_timesteps = 0` the stepper still executes up to
one sub-step per frame — exactly `min(floor((accumulator + d)/s), 1)` — while
the frame delta is added to the accumulator (the final accumulator is the
accumulated total minus the consumed steps); stepping is not disabled at 0. -/
theorem stepper_max0_spec (s a d wts ts now cost : ℚ) (avg : Option ℚ)
    (hs : 0 < s) (ha : 0 ≤ a) (hd : 0 ≤ d) :
    (PhysicsStepperSystem.run ⟨.Fixed s, 0, a, avg⟩ wts d ts now cost).2.2 =
      min ⌊(a + d) / s⌋ 1 ∧
    (PhysicsStepperSystem.run ⟨.Fixed s, 0, a, avg⟩ wts d ts now cost).1.time_accumulator =
      (a + d) - ((PhysicsStepperSystem.run ⟨.Fixed s, 0, a, avg⟩ wts d ts now cost).2.2 : ℤ) * s := by
  obtain ⟨e1, e2, _⟩ := run_fixed_spec s 0 a d wts ts now cost avg hs ha hd le_rfl
  have e1' : (PhysicsStepperSystem.run ⟨.Fixed s, 0, a, avg⟩ wts d ts now cost).2.2 =
      min ⌊(a + d) / s⌋ 1 := by
    rw [e1]
    norm_num
  refine ⟨e1', ?_⟩
  rw [e2, e1]

/-- Witness for C3's amended theorem at step `2`, accumulator `0`, delta `5`:
one sub-step is executed and the accumulator retains `3`. -/
theorem stepper_max0_spec_witness :
    (0 : ℚ) < 2 ∧
    ((PhysicsStepperSystem.run ⟨.Fixed 2, 0, 0, none⟩ 2 5 1 0 1).2.2 =
      min ⌊((0 : ℚ) + 5) / 2⌋ 1 ∧
    (PhysicsStepperSystem.run ⟨.Fixed 2, 0, 0, none⟩ 2 5 1 0 1).1.time_accumulator =
      ((0 : ℚ) + 5) -
        ((PhysicsStepperSystem.run ⟨.Fixed 2, 0, 0, none⟩ 2 5 1 0 1).2.2 : ℤ) * 2) :=
  ⟨by decide, stepper_max0_spec 2 0 5 2 1 0 1 none (by decide) (by decide) (by decide)⟩

/-- The C1 scenario's frames as (instant, frame delta) pairs: eleven
overloaded frames at instants 0, 0.1, ..., 1.0 whose delta `11/120` forces
eleven sub-steps of size `1/120` (one more than `max_timesteps = 10`),
followed by one quiet frame at instant 1.1 with delta 0. -/
def c1Frames : List (ℚ × ℚ) :=
  ((List.range 11).map (fun k => ((k : ℚ) / 10, 11/120))) ++ [(11/10, 0)]

/-- The constraint value produced by
`TimeStepConstraint.new [1/120, 1/60] 1`. -/
def c1Constraint : TimeStepConstraint := ⟨[1/120, 1/60], 0, none, 1, 1⟩

set_option maxHeartbeats 4000000 in
/-- C1: in the adaptive configuration with candidate steps `[1/120, 1/60]`
and `minimum_slow_time = 1` second, over eleven consecutive overloaded
frames (each forcing `steps_taken = 11 > max_timesteps = 10`) the stepper
signals "running slow" to the constraint's hysteresis state after every
frame (`running_slow_since` is set at the first frame and kept), the step
stays `1/120` while the elapsed slow time is at most 1 second, and on the
next frame after the elapsed slow time reaches 1 second the step transitions
to `1/60` with the performance estimate reset to unknown (`none`; the quiet
final frame executes no step, so the reset is observable in the post-frame
state).  The running-slow signal itself is Modelled from the spec (see
`PhysicsStepperSystem.runWithSlowSignal`). -/
theorem adaptive_running_slow_scenario :
    ∀ c, TimeStepConstraint.new [1/120, 1/60] 1 = some c →
    (∀ k, k < 11 →
      10 < (PhysicsStepperSystem.run
        (runFrames (1/50) ⟨.SemiFixed c, 10, 0, none⟩ (1/120) (c1Frames.take k)).1
        (runFrames (1/50) ⟨.SemiFixed c, 10, 0, none⟩ (1/120) (c1Frames.take k)).2
        (11/120) 1 ((k : ℚ) / 10) (1/50)).2.2) ∧
    (∀ k, k < 11 →
      (runFrames (1/50) ⟨.SemiFixed c, 10, 0, none⟩ (1/120) (c1Frames.take (k+1))).1.currentStep
        = 1/120 ∧
      (runFrames (1/50) ⟨.SemiFixed c, 10, 0, none⟩ (1/120) (c1Frames.take (k+1))).1.slowSince
        = some 0) ∧
    (runFrames (1/50) ⟨.SemiFixed c, 10, 0, none⟩ (1/120) c1Frames).1.currentStep = 1/60 ∧
    (runFrames (1/50) ⟨.SemiFixed c, 10, 0, none⟩ (1/120) c1Frames).1.avg_step_time = none ∧
    (runFrames (1/50) ⟨.SemiFixed c, 10, 0, none⟩ (1/120) c1Frames).2 = 1/60 := by
  intro c hc
  obtain rfl := Option.some.inj
    ((show TimeStepConstraint.new [1/120, 1/60] 1 = some c1Constraint by decide).symm.trans hc)
  decide

set_option maxHeartbeats 4000000 in
/-- Witness for C1 at the concrete constraint built by
`TimeStepConstraint.new [1/120, 1/60] 1`. -/
theorem adaptive_running_slow_scenario_witness :
    (∀ k, k < 11 →
      10 < (PhysicsStepperSystem.run
        (runFrames (1/50) ⟨.SemiFixed c1Constraint, 10, 0, none⟩ (1/120) (c1Frames.take k)).1
        (runFrames (1/50) ⟨.SemiFixed c1Constraint, 10, 0, none⟩ (1/120) (c1Frames.take k)).2
        (11/120) 1 ((k : ℚ) / 10) (1/50)).2.2) ∧
    (∀ k, k < 11 →
      (runFrames (1/50) ⟨.SemiFixed c1Constraint, 10, 0, none⟩ (1/120)
          (c1Frames.take (k+1))).1.currentStep = 1/120 ∧
      (runFrames (1/50) ⟨.SemiFixed c1Constraint, 10, 0, none⟩ (1/120)
          (c1Frames.take (k+1))).1.slowSince = some 0) ∧
    (runFrames (1/50) ⟨.SemiFixed c1Constraint, 10, 0, none⟩ (1/120) c1Frames).1.currentStep
      = 1/60 ∧
    (runFrames (1/50) ⟨.SemiFixed c1Constraint, 10, 0, none⟩ (1/120) c1Frames).1.avg_step_time
      = none ∧
    (runFrames (1/50) ⟨.SemiFixed c1Constraint, 10, 0, none⟩ (1/120) c1Frames).2 = 1/60 :=
  adaptive_running_slow_scenario c1Constraint (by decide)

theorem lookupBody_filter (l : List (BodyHandle × RigidBody))
    (f : BodyHandle × RigidBody → Bool) (h : BodyHandle)
    (hn : lookupBody l h = none) : lookupBody (l.filter f) h = none := by
  induction l with
  | nil => simp [lookupBody]
  | cons p rest ih =>
    simp only [lookupBody] at hn
    by_cases hp : p.1 = h
    · rw [if_pos hp] at hn
      cases hn
    · rw [if_neg hp] at hn
      cases hf : f p with
      | false =>
        rw [List.filter_cons_of_neg (by simp [hf])]
        exact ih hn
      | true =>
        rw [List.filter_cons_of_pos (by simp [hf])]
        simp only [lookupBody, if_neg hp]
        exact ih hn

theorem remove_bodies_rigid_body_self (w : PhysicsWorld) (h : BodyHandle) :
    (w.remove_bodies [h]).rigid_body h = none := by
  show lookupBody (w.bodies.filter _) h = none
  induction w.bodies with
  | nil => simp [lookupBody]
  | cons p rest ih =>
    by_cases hp : p.1 = h
    · rw [List.filter_cons_of_neg (by simp [hp])]
      exact ih
    · rw [List.filter_cons_of_pos (by simp [hp])]
      simp only [lookupBody, if_neg hp]
      exact ih

theorem remove_bodies_rigid_body_none (w : PhysicsWorld) (hs : List BodyHandle)
    (h : BodyHandle) (hn : w.rigid_body h = none) :
    (w.remove_bodies hs).rigid_body h = none :=
  lookupBody_filter w.bodies _ h hn

theorem lookupBody_map_update (l : List (BodyHandle × RigidBody)) (h : BodyHandle)
    (f : RigidBody → RigidBody) :
    lookupBody (l.map (fun p => if p.1 = h then (p.1, f p.2) else p)) h =
      (lookupBody l h).map f := by
  induction l with
  | nil => simp [lookupBody]
  | cons p rest ih =>
    rcases p with ⟨k, b⟩
    by_cases hp : k = h
    · subst hp
      rw [List.map_cons,
        show (if ((k, b) : BodyHandle × RigidBody).1 = k then ((k, b).1, f (k, b).2) else (k, b))
          = (k, f b) from by simp]
      simp [lookupBody]
    · rw [List.map_cons,
        show (if ((k, b) : BodyHandle × RigidBody).1 = h then ((k, b).1, f (k, b).2) else (k, b))
          = (k, b) from by simp [hp]]
      simp [lookupBody, hp, ih]

theorem update_body_rigid_body (w : PhysicsWorld) (h : BodyHandle)
    (f : RigidBody → RigidBody) :
    (w.update_body h f).rigid_body h = (w.rigid_body h).map f :=
  lookupBody_map_update w.bodies h f

theorem add_rigid_body_lookup (w : PhysicsWorld) (position : Iso3) (inertia : Inertia)
    (com : ℚ) :
    (w.add_rigid_body position inertia com).2.rigid_body
        (w.add_rigid_body position inertia com).1 =
      some ⟨position, ⟨⟨0, 0, 0⟩, ⟨0, 0, 0⟩⟩, inertia, com, Force.zero,
            BodyStatus.Dynamic, none⟩ := by
  simp [PhysicsWorld.add_rigid_body, PhysicsWorld.rigid_body, lookupBody]

theorem Force.zero_add (f : Force) : Force.zero.add f = f := by
  rcases f with ⟨⟨x, y, z⟩, ⟨a, b, c⟩⟩
  simp [Force.add, Force.zero]

theorem iterate_events_rigid_body_none (bodies : Entity → Option DynamicBody) :
    ∀ (events : List ComponentEvent) (ins mo : List Entity) (w : PhysicsWorld)
      (h : BodyHandle), w.rigid_body h = none →
      ((iterate_events bodies events ins mo w).2.2).rigid_body h = none := by
  intro events
  induction events with
  | nil =>
    intro ins mo w h hn
    simpa [iterate_events] using hn
  | cons ev rest ih =>
    intro ins mo w h hn
    cases ev with
    | Modified id =>
      simp only [iterate_events]
      exact ih _ _ _ _ hn
    | Inserted id =>
      simp only [iterate_events]
      exact ih _ _ _ _ hn
    | Removed id =>
      cases hb : bodies id with
      | none =>
        simp only [iterate_events, hb]
        exact ih _ _ _ _ hn
      | some body =>
        cases hh : body.handle with
        | none =>
          simp only [iterate_events, hb, hh]
          exact ih _ _ _ _ hn
        | some handle =>
          simp only [iterate_events, hb, hh]
          exact ih _ _ _ _ (remove_bodies_rigid_body_none w [handle] h hn)

/-- Counterexample data for C4: a physics world holding one body under
handle 7. -/
def c4Body : RigidBody :=
  ⟨0, ⟨⟨0, 0, 0⟩, ⟨0, 0, 0⟩⟩, ⟨1, 1⟩, 0, Force.zero, BodyStatus.Dynamic, none⟩

def c4World : PhysicsWorld := ⟨[(7, c4Body)], [], 8⟩

/-- Counterexample for C4: entity 1's component pair has been removed this
frame, but `bodies.get(entities.entity(id))` — the storage lookup that
`iterate_events` performs while processing the `Removed` event — no longer
yields the component (specs removes the component from storage before the
event is read), so no handle is obtained and the entity's body (handle 7)
is *not* removed from the simulation: the world is returned unchanged and
only an error is logged, contradicting "the body is destroyed the frame its
components are removed". -/
theorem removed_body_cex :
    (iterate_events (fun _ => none) [ComponentEvent.Removed 1] [] [] c4World).2.2 = c4World ∧
    ((iterate_events (fun _ => none) [ComponentEvent.Removed 1] [] [] c4World).2.2).rigid_body 7
      = some c4Body := by decide

/-- C4 (amended): a removed-component event destroys the entity's body in
the same frame's change-event processing exactly when the `DynamicBody`
storage still yields the entity's component at event-processing time and
that component holds a handle; when the storage lookup or the handle is
missing, an error is logged and the world passes through that event
unchanged. -/
theorem removed_body_spec (bodies : Entity → Option DynamicBody)
    (events : List ComponentEvent) (ins mo : List Entity) (w : PhysicsWorld)
    (id : Entity) (b : DynamicBody) (h : BodyHandle) :
    (ComponentEvent.Removed id ∈ events → bodies id = some b → b.handle = some h →
      ((iterate_events bodies events ins mo w).2.2).rigid_body h = none) ∧
    (bodies id = none →
      iterate_events bodies (ComponentEvent.Removed id :: events) ins mo w =
        iterate_events bodies events ins mo w) ∧
    (bodies id = some b → b.handle = none →
      iterate_events bodies (ComponentEvent.Removed id :: events) ins mo w =
        iterate_events bodies events ins mo w) := by
  refine ⟨?_, ?_, ?_⟩
  · intro hmem hb hh
    induction events generalizing ins mo w with
    | nil => simp at hmem
    | cons ev rest ih =>
      rcases List.mem_cons.mp hmem with heq | hmem2
      · subst heq
        simp only [iterate_events, hb, hh]
        exact iterate_events_rigid_body_none bodies rest ins mo _ h
          (remove_bodies_rigid_body_self w h)
      · cases ev with
        | Modified id2 =>
          simp only [iterate_events]
          exact ih _ _ _ hmem2
        | Inserted id2 =>
          simp only [iterate_events]
          exact ih _ _ _ hmem2
        | Removed id2 =>
          cases hb2 : bodies id2 with
          | none =>
            simp only [iterate_events, hb2]
            exact ih _ _ _ hmem2
          | some body2 =>
            cases hh2 : body2.handle with
            | none =>
              simp only [iterate_events, hb2, hh2]
              exact ih _ _ _ hmem2
            | some handle2 =>
              simp only [iterate_events, hb2, hh2]
              exact ih _ _ _ hmem2
  · intro hb
    simp only [iterate_events, hb]
  · intro hb hh
    simp only [iterate_events, hb, hh]

/-- Witness for C4's amended theorem: a removal event whose entity still
resolves to a component with handle 7 removes body 7, and one whose lookup
fails leaves the world unchanged. -/
theorem removed_body_spec_witness :
    ((iterate_events
        (fun id => if id = 1 then some (DynamicBody.RigidBody
          ⟨some 7, 1, 1, 0, ⟨⟨0, 0, 0⟩, ⟨0, 0, 0⟩⟩, Force.zero, BodyStatus.Dynamic⟩) else none)
        [ComponentEvent.Removed 1] [] [] c4World).2.2).rigid_body 7 = none ∧
    iterate_events (fun _ => none) (ComponentEvent.Removed 2 :: []) [] [] c4World =
      iterate_events (fun _ => none) [] [] [] c4World :=
  ⟨(removed_body_spec
      (fun id => if id = 1 then some (DynamicBody.RigidBody
        ⟨some 7, 1, 1, 0, ⟨⟨0, 0, 0⟩, ⟨0, 0, 0⟩⟩, Force.zero, BodyStatus.Dynamic⟩) else none)
      [ComponentEvent.Removed 1] [] [] c4World 1
      (DynamicBody.RigidBody
        ⟨some 7, 1, 1, 0, ⟨⟨0, 0, 0⟩, ⟨0, 0, 0⟩⟩, Force.zero, BodyStatus.Dynamic⟩) 7).1
      (by decide) (by decide) (by decide),
   (removed_body_spec (fun _ => none) [] [] [] c4World 2
      (DynamicBody.Multibody) 7).2.1 (by decide)⟩

/-- C9: for an entity whose components are first observed (the inserted
path), given that the transform's pose conversion succeeds, one run of the
per-entity sync creates a simulation body under a fresh handle whose inertia
is `(mass, angular_mass)` and whose pose is the converted transform, sets
its velocity to the component's velocity, applies the pending external force
`F` (the fresh body's accumulator becomes exactly `F`), sets the body
status, stores the handle back-reference in the component and zeroes the
component's external-force field. -/
theorem insert_path_spec (w : PhysicsWorld) (t : GlobalTransform)
    (rb : RigidPhysicsBody) (p : Iso3) (mo : Bool)
    (hconv : try_convert t = some p) :
    ∃ hnew w2,
      syncEntity w t (.RigidBody rb) true mo =
        some (w2, .RigidBody { rb with handle := some hnew, external_forces := Force.zero }) ∧
      w2.rigid_body hnew =
        some ⟨p, rb.velocity, ⟨rb.mass, rb.angular_mass⟩, rb.center_of_mass,
              rb.external_forces, rb.body_status, none⟩ := by
  have key2 : ∀ wx : PhysicsWorld,
      ((wx.add_rigid_body p ⟨rb.mass, rb.angular_mass⟩ rb.center_of_mass).2.update_body
        (wx.add_rigid_body p ⟨rb.mass, rb.angular_mass⟩ rb.center_of_mass).1
        (fun physical_body =>
          { physical_body with
            velocity := rb.velocity
            forces := physical_body.forces.add rb.external_forces
            status := rb.body_status })).rigid_body
        (wx.add_rigid_body p ⟨rb.mass, rb.angular_mass⟩ rb.center_of_mass).1 =
      some ⟨p, rb.velocity, ⟨rb.mass, rb.angular_mass⟩, rb.center_of_mass,
            rb.external_forces, rb.body_status, none⟩ := by
    intro wx
    rw [update_body_rigid_body, add_rigid_body_lookup]
    simp [Force.zero_add]
  rcases hrbh : rb.handle with _ | h0
  · refine ⟨_, _, ?_, key2 w⟩
    simp only [syncEntity, hrbh, hconv, add_rigid_body_lookup]
  · by_cases hws : (w.rigid_body h0).isSome
    · refine ⟨_, _, ?_, key2 (w.remove_bodies [h0])⟩
      simp only [syncEntity, hrbh, hconv, hws, if_true, add_rigid_body_lookup]
    · refine ⟨_, _, ?_, key2 w⟩
      simp only [syncEntity, hrbh, hconv, add_rigid_body_lookup]
      rw [if_neg hws]

/-- Witness for C9: the spec scenario — an entity inserted with mass 2,
angular mass 1, velocity (1,0,0) and no pending force gets a body with
inertia (2,1) and velocity (1,0,0), and its external-force field ends zero. -/
theorem insert_path_spec_witness :
    ∃ hnew w2,
      syncEntity ⟨[], [], 0⟩ ⟨some 0⟩
        (.RigidBody ⟨none, 2, 1, 0, ⟨⟨1, 0, 0⟩, ⟨0, 0, 0⟩⟩, Force.zero, BodyStatus.Dynamic⟩)
        true false =
        some (w2, .RigidBody
          ⟨some hnew, 2, 1, 0, ⟨⟨1, 0, 0⟩, ⟨0, 0, 0⟩⟩, Force.zero, BodyStatus.Dynamic⟩) ∧
      w2.rigid_body hnew =
        some ⟨0, ⟨⟨1, 0, 0⟩, ⟨0, 0, 0⟩⟩, ⟨2, 1⟩, 0, Force.zero, BodyStatus.Dynamic, none⟩ :=
  insert_path_spec ⟨[], [], 0⟩ ⟨some 0⟩
    ⟨none, 2, 1, 0, ⟨⟨1, 0, 0⟩, ⟨0, 0, 0⟩⟩, Force.zero, BodyStatus.Dynamic⟩ 0 false rfl

/-- C10: on the modified path (entity modified but not inserted), with a
stored handle whose body is live and a convertible transform, the stored
external force is applied to the simulation body (added to its force
accumulator) but the component is returned unchanged — its external-force
field is *not* zeroed, unlike on the inserted path — so a second modified
frame with the same component re-applies the same force: after two such
frames the body's accumulator has received the force twice. -/
theorem modified_path_force_reapply (w : PhysicsWorld) (t : GlobalTransform)
    (rb : RigidPhysicsBody) (h : BodyHandle) (pb : RigidBody) (p : Iso3)
    (hh : rb.handle = some h) (hw : w.rigid_body h = some pb)
    (hconv : try_convert t = some p) :
    ∃ w2,
      syncEntity w t (.RigidBody rb) false true = some (w2, .RigidBody rb) ∧
      w2.rigid_body h =
        some { pb with
          position := p
          velocity := rb.velocity
          forces := pb.forces.add rb.external_forces
          status := rb.body_status } ∧
      ∃ w3,
        syncEntity w2 t (.RigidBody rb) false true = some (w3, .RigidBody rb) ∧
        w3.rigid_body h =
          some { pb with
            position := p
            velocity := rb.velocity
            forces := (pb.forces.add rb.external_forces).add rb.external_forces
            status := rb.body_status } := by
  have step : ∀ (wx : PhysicsWorld) (pbx : RigidBody), wx.rigid_body h = some pbx →
      syncEntity wx t (.RigidBody rb) false true =
        some (wx.update_body h (fun physical_body =>
          { physical_body with
            position := p
            velocity := rb.velocity
            forces := physical_body.forces.add rb.external_forces
            status := rb.body_status }), .RigidBody rb) := by
    intro wx pbx hwx
    simp only [syncEntity, hh, hwx, hconv]
  have lk : ∀ (wx : PhysicsWorld) (pbx : RigidBody), wx.rigid_body h = some pbx →
      (wx.update_body h (fun physical_body =>
        { physical_body with
          position := p
          velocity := rb.velocity
          forces := physical_body.forces.add rb.external_forces
          status := rb.body_status })).rigid_body h =
      some { pbx with
        position := p
        velocity := rb.velocity
        forces := pbx.forces.add rb.external_forces
        status := rb.body_status } := by
    intro wx pbx hwx
    rw [update_body_rigid_body, hwx]
    rfl
  refine ⟨_, step w pb hw, lk w pb hw, _, step _ _ (lk w pb hw), ?_⟩
  rw [lk _ _ (lk w pb hw)]

/-- Witness for C10 at a world holding one body under handle 3 and a
component with a pending unit force: two modified frames accumulate the
force twice. -/
theorem modified_path_force_reapply_witness :
    ∃ w2,
      syncEntity ⟨[(3, c4Body)], [], 4⟩ ⟨some 0⟩
        (.RigidBody ⟨some 3, 1, 1, 0, ⟨⟨0, 0, 0⟩, ⟨0, 0, 0⟩⟩,
          ⟨⟨1, 0, 0⟩, ⟨0, 0, 0⟩⟩, BodyStatus.Dynamic⟩) false true =
        some (w2, .RigidBody ⟨some 3, 1, 1, 0, ⟨⟨0, 0, 0⟩, ⟨0, 0, 0⟩⟩,
          ⟨⟨1, 0, 0⟩, ⟨0, 0, 0⟩⟩, BodyStatus.Dynamic⟩) ∧
      w2.rigid_body 3 =
        some { c4Body with
          position := 0
          velocity := ⟨⟨0, 0, 0⟩, ⟨0, 0, 0⟩⟩
          forces := Force.zero.add ⟨⟨1, 0, 0⟩, ⟨0, 0, 0⟩⟩
          status := BodyStatus.Dynamic } ∧
      ∃ w3,
        syncEntity w2 ⟨some 0⟩
          (.RigidBody ⟨some 3, 1, 1, 0, ⟨⟨0, 0, 0⟩, ⟨0, 0, 0⟩⟩,
            ⟨⟨1, 0, 0⟩, ⟨0, 0, 0⟩⟩, BodyStatus.Dynamic⟩) false true =
          some (w3, .RigidBody ⟨some 3, 1, 1, 0, ⟨⟨0, 0, 0⟩, ⟨0, 0, 0⟩⟩,
            ⟨⟨1, 0, 0⟩, ⟨0, 0, 0⟩⟩, BodyStatus.Dynamic⟩) ∧
        w3.rigid_body 3 =
          some { c4Body with
            position := 0
            velocity := ⟨⟨0, 0, 0⟩, ⟨0, 0, 0⟩⟩
            forces := (Force.zero.add ⟨⟨1, 0, 0⟩, ⟨0, 0, 0⟩⟩).add ⟨⟨1, 0, 0⟩, ⟨0, 0, 0⟩⟩
            status := BodyStatus.Dynamic } :=
  modified_path_force_reapply ⟨[(3, c4Body)], [], 4⟩ ⟨some 0⟩
    ⟨some 3, 1, 1, 0, ⟨⟨0, 0, 0⟩, ⟨0, 0, 0⟩⟩, ⟨⟨1, 0, 0⟩, ⟨0, 0, 0⟩⟩, BodyStatus.Dynamic⟩
    3 c4Body 0 rfl (by decide) rfl

/-- Counterexample for C6: (a) a *modified* entity whose component lacks a
handle panics (`rigid_body.handle.unwrap()`), it is not skipped; (b) that
panic aborts the processing of every later entity in the frame (here a
well-formed second entity); (c) on the *inserted* path a transform whose
pose conversion fails panics (`try_convert(transform.0).unwrap()`) instead
of being logged and dropped. -/
theorem inbound_failure_cex :
    syncEntity ⟨[], [], 0⟩ ⟨some 0⟩
      (.RigidBody ⟨none, 1, 1, 0, ⟨⟨0, 0, 0⟩, ⟨0, 0, 0⟩⟩, Force.zero, BodyStatus.Dynamic⟩)
      false true = none ∧
    syncEntities ⟨[], [], 0⟩
      [(⟨some 0⟩, .RigidBody ⟨none, 1, 1, 0, ⟨⟨0, 0, 0⟩, ⟨0, 0, 0⟩⟩,
          Force.zero, BodyStatus.Dynamic⟩, false, true),
       (⟨some 0⟩, .RigidBody ⟨some 3, 1, 1, 0, ⟨⟨0, 0, 0⟩, ⟨0, 0, 0⟩⟩,
          Force.zero, BodyStatus.Dynamic⟩, false, true)] = none ∧
    syncEntity ⟨[], [], 0⟩ ⟨none⟩
      (.RigidBody ⟨some 3, 1, 1, 0, ⟨⟨0, 0, 0⟩, ⟨0, 0, 0⟩⟩, Force.zero, BodyStatus.Dynamic⟩)
      true false = none := by decide

/-- C6 (amended): on the modified path, an entity whose stored handle has no
live body in the simulation, or whose pose conversion fails, is skipped
non-fatally — the world and the component pass through unchanged and the
remaining entities of the frame are processed exactly as if the entity were
absent; but a modified entity whose component lacks a handle, and an
inserted entity whose pose conversion fails, panic (embedded `none`),
aborting the frame. -/
theorem inbound_failure_spec (w : PhysicsWorld) (t : GlobalTransform)
    (rb : RigidPhysicsBody) (h : BodyHandle)
    (rest : List (GlobalTransform × DynamicBody × Bool × Bool)) :
    (rb.handle = some h → w.rigid_body h = none →
      syncEntity w t (.RigidBody rb) false true = some (w, .RigidBody rb) ∧
      syncEntities w ((t, .RigidBody rb, false, true) :: rest) =
        (syncEntities w rest).map (fun out => (out.1, DynamicBody.RigidBody rb :: out.2))) ∧
    (rb.handle = some h → (w.rigid_body h).isSome = true → try_convert t = none →
      syncEntity w t (.RigidBody rb) false true = some (w, .RigidBody rb) ∧
      syncEntities w ((t, .RigidBody rb, false, true) :: rest) =
        (syncEntities w rest).map (fun out => (out.1, DynamicBody.RigidBody rb :: out.2))) ∧
    (rb.handle = none → syncEntity w t (.RigidBody rb) false true = none) ∧
    (try_convert t = none → ∀ mo, syncEntity w t (.RigidBody rb) true mo = none) := by
  refine ⟨?_, ?_, ?_, ?_⟩
  · intro hh hw
    have e : syncEntity w t (.RigidBody rb) false true = some (w, .RigidBody rb) := by
      simp only [syncEntity, hh, hw]
    refine ⟨e, ?_⟩
    simp only [syncEntities, e]
    cases syncEntities w rest with
    | none => rfl
    | some out => rfl
  · intro hh hws hc
    obtain ⟨pb, hpb⟩ := Option.isSome_iff_exists.mp hws
    have e : syncEntity w t (.RigidBody rb) false true = some (w, .RigidBody rb) := by
      simp only [syncEntity, hh, hpb, hc]
    refine ⟨e, ?_⟩
    simp only [syncEntities, e]
    cases syncEntities w rest with
    | none => rfl
    | some out => rfl
  · intro hh
    simp only [syncEntity, hh]
  · intro hc mo
    rcases hrbh : rb.handle with _ | h0
    · simp only [syncEntity, hrbh, hc]
    · by_cases hws : (w.rigid_body h0).isSome
      · simp only [syncEntity, hrbh, hws, if_true, hc]
      · simp only [syncEntity, hrbh, hc]

/-- Witness for C6's amended theorem: a modified entity whose handle 3 has
no body in an empty world is skipped and the rest of the frame (an empty
tail) is processed unchanged. -/
theorem inbound_failure_spec_witness :
    syncEntity ⟨[], [], 0⟩ ⟨some 0⟩
      (.RigidBody ⟨some 3, 1, 1, 0, ⟨⟨0, 0, 0⟩, ⟨0, 0, 0⟩⟩, Force.zero, BodyStatus.Dynamic⟩)
      false true =
      some (⟨[], [], 0⟩, .RigidBody
        ⟨some 3, 1, 1, 0, ⟨⟨0, 0, 0⟩, ⟨0, 0, 0⟩⟩, Force.zero, BodyStatus.Dynamic⟩) ∧
    syncEntities ⟨[], [], 0⟩
      [(⟨some 0⟩, .RigidBody ⟨some 3, 1, 1, 0, ⟨⟨0, 0, 0⟩, ⟨0, 0, 0⟩⟩,
          Force.zero, BodyStatus.Dynamic⟩, false, true)] =
      (syncEntities ⟨[], [], 0⟩ []).map
        (fun out => (out.1, DynamicBody.RigidBody
          ⟨some 3, 1, 1, 0, ⟨⟨0, 0, 0⟩, ⟨0, 0, 0⟩⟩, Force.zero, BodyStatus.Dynamic⟩ :: out.2)) :=
  (inbound_failure_spec ⟨[], [], 0⟩ ⟨some 0⟩
    ⟨some 3, 1, 1, 0, ⟨⟨0, 0, 0⟩, ⟨0, 0, 0⟩⟩, Force.zero, BodyStatus.Dynamic⟩ 3 []).1
    rfl rfl

/-- A physics body carrying a boxed entity back-reference as user data. -/
def c5Body (e : Entity) : RigidBody :=
  ⟨0, ⟨⟨0, 0, 0⟩, ⟨0, 0, 0⟩⟩, ⟨1, 1⟩, 0, Force.zero, BodyStatus.Dynamic, some (some e)⟩

/-- Both collider handles resolve to live bodies with entity user data. -/
def c5GoodWorld : PhysicsWorld :=
  ⟨[(10, c5Body 4), (11, c5Body 5)], [(1, 10), (2, 11)], 12⟩

/-- Collider 1's body carries user data that is not a boxed entity, so the
`downcast_ref` fails — the handled, logged-error branch. -/
def c5DropWorld : PhysicsWorld :=
  ⟨[(10, ⟨0, ⟨⟨0, 0, 0⟩, ⟨0, 0, 0⟩⟩, ⟨1, 1⟩, 0, Force.zero, BodyStatus.Dynamic, some none⟩),
    (11, c5Body 5)], [(1, 10), (2, 11)], 12⟩

/-- Collider 1 maps to body handle 10, but no body 10 is live in the world:
`physical_world.rigid_body(c1)` is `None` and the `.unwrap()` panics. -/
def c5PanicWorld : PhysicsWorld :=
  ⟨[(11, c5Body 5)], [(1, 10), (2, 11)], 12⟩

/-- C5 (code bug): when both participants of a drained contact event resolve,
OutboundSync emits exactly one (entityA, entityB, rawEvent) record ordered by
the originating collider handles, and a failing entity downcast is dropped
with zero records as claimed — but a collider handle whose mapped *body*
handle has no live body makes the translation panic (`.unwrap()` on the
`Option` returned by `rigid_body(..)`, embedded as `none`), aborting the
frame instead of logging and dropping the event; the proximity path panics
identically.  The surrounding error branches show the graceful behaviour the
claim (and spec) state is the intent. -/
theorem contact_event_panic_bug :
    processContactEvents c5GoodWorld [ContactEvent.Started 1 2] =
      some [(4, 5, ContactEvent.Started 1 2)] ∧
    processContactEvents c5DropWorld [ContactEvent.Started 1 2] = some [] ∧
    processContactEvents c5PanicWorld [ContactEvent.Started 1 2] = none ∧
    processProximityEvent c5PanicWorld ⟨1, 2⟩ = none := by decide
